import Mathlib

/-!
# Planetary renderer: camera / input state machine and transform hierarchy

A shallow embedding of `src/main.cpp` and of the `GLState` record of
`src/utility.h`.

* C++ `float` / `double` values are modelled by exact numbers: the input
  callbacks that only add, compare and clamp are written over an arbitrary
  linearly ordered field `α` (so they run on `ℚ`), everything that calls
  `cos`, `sin` or `sqrt` is written over `ℝ`.  Casts between `double` and
  `float` are therefore the identity.
* `uint32_t mode` is a `Nat` with the wrap `% 2 ^ 32` written where the code
  adds.
* `printf` calls and all OpenGL calls have no effect on the modelled state and
  are omitted.
* `glm` is column major, `m[j]` being column `j`.  A `mat4` is a Mathlib matrix
  whose entry `M i j` (row `i`, column `j`) is glm's `m[j][i]`, so that glm's
  `operator*` is the matrix product.
-/

namespace PlanetRenderer

/-! ## Vectors (`glm::vec3`) -/

/-- The type `glm::vec3`. -/
@[ext]
structure Vec3 (α : Type) where
  x : α
  y : α
  z : α
deriving DecidableEq, Repr

namespace Vec3

variable {α : Type}

/-- Component-wise sum, `operator+` of `glm::vec3`. -/
def add [Add α] (a b : Vec3 α) : Vec3 α :=
  ⟨a.x + b.x, a.y + b.y, a.z + b.z⟩

/-- Component-wise difference, `operator-` of `glm::vec3`. -/
def sub [Sub α] (a b : Vec3 α) : Vec3 α :=
  ⟨a.x - b.x, a.y - b.y, a.z - b.z⟩

/-- Product with a scalar, `operator*` of `glm::vec3` with a `float`. -/
def smul [Mul α] (k : α) (a : Vec3 α) : Vec3 α :=
  ⟨k * a.x, k * a.y, k * a.z⟩

/-- Inner product, `glm::dot`. -/
def dot [Add α] [Mul α] (a b : Vec3 α) : α :=
  a.x * b.x + a.y * b.y + a.z * b.z

/-- Vector product, `glm::cross`. -/
def cross [Sub α] [Mul α] (a b : Vec3 α) : Vec3 α :=
  ⟨a.y * b.z - b.y * a.z, a.z * b.x - b.z * a.x, a.x * b.y - b.x * a.y⟩

/-- The vector `glm::vec3(s)` with three equal components. -/
def splat (s : α) : Vec3 α :=
  ⟨s, s, s⟩

end Vec3

/-- Euclidean length, `glm::length`: `sqrt(dot(v, v))`. -/
noncomputable def length (v : Vec3 ℝ) : ℝ :=
  Real.sqrt (Vec3.dot v v)

/-- Euclidean distance, `glm::distance`: `length(p1 - p0)`. -/
noncomputable def distance (p0 p1 : Vec3 ℝ) : ℝ :=
  length (Vec3.sub p1 p0)

/-- Unit vector of `v`, `glm::normalize`: `v * inversesqrt(dot(v, v))`. -/
noncomputable def normalize (v : Vec3 ℝ) : Vec3 ℝ :=
  Vec3.smul (1 / Real.sqrt (Vec3.dot v v)) v

/-- Degrees to radians, `glm::radians`. -/
noncomputable def radians (degrees : ℝ) : ℝ :=
  degrees * (Real.pi / 180)

/-- Clamp of glm, `glm::clamp(x, minVal, maxVal)`: `min(max(x, minVal), maxVal)`. -/
def clamp {α : Type} [LinearOrder α] (x minVal maxVal : α) : α :=
  min (max x minVal) maxVal

/-! ## The state record (`GLState`, utility.h) -/

/-- The camera, input and clock fields of `GLState`.  The window pointer and the
pipeline handle are GPU resources and are left out. -/
structure GLState (α : Type) where
  width : Int
  height : Int
  gaze : Vec3 α
  pos : Vec3 α
  up : Vec3 α
  yaw : α
  pitch : α
  cameraDistance : α
  leftMousePressed : Bool
  lastMouseX : α
  lastMouseY : α
  firstMouse : Bool
  wPressed : Bool
  aPressed : Bool
  sPressed : Bool
  dPressed : Bool
  timeSpeed : α
  currentTime : α
  mode : Nat

/-- The default member initialisers of `GLState`. -/
def GLState.initial (α : Type) [LinearOrderedField α] : GLState α where
  width := 0
  height := 0
  gaze := ⟨0, 0, 0⟩
  pos := ⟨0, 0, 10⟩
  up := ⟨0, 1, 0⟩
  yaw := -90
  pitch := 0
  cameraDistance := 10
  leftMousePressed := false
  lastMouseX := 0
  lastMouseY := 0
  firstMouse := true
  wPressed := false
  aPressed := false
  sPressed := false
  dPressed := false
  timeSpeed := 1
  currentTime := 0
  mode := 3

/-! ## GLFW constants (values of `GLFW/glfw3.h`) -/

/-- Key or button released. -/
def GLFW_RELEASE : Int := 0
/-- Key or button pressed. -/
def GLFW_PRESS : Int := 1
/-- Key held until it repeats. -/
def GLFW_REPEAT : Int := 2
/-- Left mouse button. -/
def GLFW_MOUSE_BUTTON_LEFT : Int := 0
/-- Key `A`. -/
def GLFW_KEY_A : Int := 65
/-- Key `D`. -/
def GLFW_KEY_D : Int := 68
/-- Key `K`. -/
def GLFW_KEY_K : Int := 75
/-- Key `L`. -/
def GLFW_KEY_L : Int := 76
/-- Key `O`. -/
def GLFW_KEY_O : Int := 79
/-- Key `P`. -/
def GLFW_KEY_P : Int := 80
/-- Key `S`. -/
def GLFW_KEY_S : Int := 83
/-- Key `W`. -/
def GLFW_KEY_W : Int := 87

/-! ## Input callbacks (main.cpp, lines 14-126) -/

section Callbacks

variable {α : Type} [LinearOrderedField α]

/-- Cursor callback `MouseMoveCallback` (main.cpp 14-41). -/
def MouseMoveCallback (state : GLState α) (x y : α) : GLState α :=
  let state : GLState α :=
    if state.firstMouse then
      { state with lastMouseX := x, lastMouseY := y, firstMouse := false }
    else state
  let dx := x - state.lastMouseX
  let dy := state.lastMouseY - y
  let state : GLState α := { state with lastMouseX := x, lastMouseY := y }
  if state.leftMousePressed then
    let sensitivity : α := 0.1
    let state : GLState α := { state with yaw := state.yaw + dx * sensitivity }
    let state : GLState α := { state with pitch := state.pitch + dy * sensitivity }
    let state : GLState α := if state.pitch > 89 then { state with pitch := 89 } else state
    let state : GLState α := if state.pitch < -89 then { state with pitch := -89 } else state
    state
  else state

/-- Button callback `MouseButtonCallback` (main.cpp 43-54). -/
def MouseButtonCallback (state : GLState α) (button action : Int) : GLState α :=
  if button = GLFW_MOUSE_BUTTON_LEFT then
    if action = GLFW_PRESS then
      { state with leftMousePressed := true }
    else if action = GLFW_RELEASE then
      { state with leftMousePressed := false }
    else state
  else state

/-- Resize callback `FramebufferChangeCallback` (main.cpp 75-80). -/
def FramebufferChangeCallback (state : GLState α) (w h : Int) : GLState α :=
  { state with width := w, height := h }

/-- Key callback `KeyboardCallback` (main.cpp 82-126).  Each `if (key == ...)`
block of the code writes one field; the blocks are run in the code's order on
the field they write, and the record is rebuilt at the end. -/
def KeyboardCallback (state : GLState α) (key action : Int) : GLState α :=
  if action = GLFW_PRESS then
    -- camera mode switching (lines 89-96)
    let mode : Nat :=
      if key = GLFW_KEY_P then ((state.mode + 1) % 2 ^ 32) % 4 else state.mode
    let mode : Nat :=
      if key = GLFW_KEY_O then (if mode = 0 then 3 else mode - 1) else mode
    -- time control (lines 99-112)
    let timeSpeed : α :=
      if key = GLFW_KEY_L then
        let timeSpeed : α := state.timeSpeed + 0.5
        if timeSpeed > 5 then -2 else timeSpeed
      else state.timeSpeed
    let timeSpeed : α :=
      if key = GLFW_KEY_K then
        let timeSpeed : α := timeSpeed - 0.5
        if timeSpeed < -2 then 0.1 else timeSpeed
      else timeSpeed
    -- WASD movement (lines 115-118)
    { state with
      mode := mode
      timeSpeed := timeSpeed
      wPressed := if key = GLFW_KEY_W then true else state.wPressed
      aPressed := if key = GLFW_KEY_A then true else state.aPressed
      sPressed := if key = GLFW_KEY_S then true else state.sPressed
      dPressed := if key = GLFW_KEY_D then true else state.dPressed }
  else if action = GLFW_RELEASE then
    -- lines 121-124
    { state with
      wPressed := if key = GLFW_KEY_W then false else state.wPressed
      aPressed := if key = GLFW_KEY_A then false else state.aPressed
      sPressed := if key = GLFW_KEY_S then false else state.sPressed
      dPressed := if key = GLFW_KEY_D then false else state.dPressed }
  else state

end Callbacks

/-- The view direction both `MouseScrollCallback` and `UpdateFPSCamera` compute
from yaw and pitch (main.cpp 61-65 and 136-140). -/
noncomputable def front (yaw pitch : ℝ) : Vec3 ℝ :=
  normalize
    ⟨Real.cos (radians yaw) * Real.cos (radians pitch),
     Real.sin (radians pitch),
     Real.sin (radians yaw) * Real.cos (radians pitch)⟩

/-- Scroll callback `MouseScrollCallback` (main.cpp 56-73); the unnamed first
scroll argument is unused by the code. -/
noncomputable def MouseScrollCallback (state : GLState ℝ) (dy : ℝ) : GLState ℝ :=
  if state.mode = 3 then
    let front := front state.yaw state.pitch
    let state : GLState ℝ := { state with pos := Vec3.add state.pos (Vec3.smul (dy * 0.5) front) }
    { state with gaze := Vec3.add state.pos front }
  else
    let state : GLState ℝ := { state with cameraDistance := state.cameraDistance - dy * 0.5 }
    { state with cameraDistance := clamp state.cameraDistance 2 50 }

/-! ## Camera update (main.cpp, lines 133-196) -/

/-- Camera step of the first-person mode, `UpdateFPSCamera` (main.cpp 133-156). -/
noncomputable def UpdateFPSCamera (state : GLState ℝ) (deltaTime : ℝ) : GLState ℝ :=
  let front := front state.yaw state.pitch
  let right := normalize (Vec3.cross front state.up)
  let cameraSpeed : ℝ := 5 * deltaTime
  let state : GLState ℝ :=
    if state.mode = 3 then
      let state : GLState ℝ :=
        if state.wPressed then
          { state with pos := Vec3.add state.pos (Vec3.smul cameraSpeed front) }
        else state
      let state : GLState ℝ :=
        if state.sPressed then
          { state with pos := Vec3.sub state.pos (Vec3.smul cameraSpeed front) }
        else state
      let state : GLState ℝ :=
        if state.aPressed then
          { state with pos := Vec3.sub state.pos (Vec3.smul cameraSpeed right) }
        else state
      let state : GLState ℝ :=
        if state.dPressed then
          { state with pos := Vec3.add state.pos (Vec3.smul cameraSpeed right) }
        else state
      state
    else state
  { state with gaze := Vec3.add state.pos front }

/-- Absolute-position query `GetPlanetPosition` (main.cpp 159-181). -/
noncomputable def GetPlanetPosition (planetIndex : Int) (time : ℝ) : Vec3 ℝ :=
  if planetIndex = 0 then
    Vec3.splat 0
  else if planetIndex = 1 then
    let moonAngle := time * 0.5
    ⟨5 * Real.cos moonAngle, 0, 5 * Real.sin moonAngle⟩
  else if planetIndex = 2 then
    let moonAngle := time * 0.5
    let moonPos : Vec3 ℝ := ⟨5 * Real.cos moonAngle, 0, 5 * Real.sin moonAngle⟩
    let moonMoonAngle := time * 1.0
    let offset : Vec3 ℝ := ⟨2 * Real.cos moonMoonAngle, 0, 2 * Real.sin moonMoonAngle⟩
    Vec3.add moonPos offset
  else
    Vec3.splat 0

/-- Camera step of the orbit modes, `UpdateOrbitCamera` (main.cpp 184-196). -/
noncomputable def UpdateOrbitCamera (state : GLState ℝ) : GLState ℝ :=
  let planetPos := GetPlanetPosition (state.mode : Int) state.currentTime
  let orbitAngle := radians state.yaw
  let verticalAngle := radians (clamp state.pitch (-89) 89)
  let state : GLState ℝ :=
    { state with pos := { state.pos with
        x := planetPos.x + state.cameraDistance * Real.cos orbitAngle * Real.cos verticalAngle } }
  let state : GLState ℝ :=
    { state with pos := { state.pos with
        y := planetPos.y + state.cameraDistance * Real.sin verticalAngle } }
  let state : GLState ℝ :=
    { state with pos := { state.pos with
        z := planetPos.z + state.cameraDistance * Real.sin orbitAngle * Real.cos verticalAngle } }
  { state with gaze := planetPos }

/-! ## Matrices (`glm::mat4`, glm/ext/matrix_transform.inl) -/

/-- The type `glm::mat4`; entry `M i j` is glm's `m[j][i]` (column `j`, row `i`). -/
abbrev Mat4 : Type := Matrix (Fin 4) (Fin 4) ℝ

/-- Column `j` of a matrix, glm's `m[j]`. -/
def col (m : Mat4) (j : Fin 4) : Fin 4 → ℝ :=
  fun i => m i j

/-- The matrix with the four given columns. -/
def ofCols (c0 c1 c2 c3 : Fin 4 → ℝ) : Mat4 :=
  Matrix.of fun i j => ![c0 i, c1 i, c2 i, c3 i] j

/-- Translation of glm, `glm::translate(m, v)`:
`Result[3] = m[0] * v[0] + m[1] * v[1] + m[2] * v[2] + m[3]`. -/
def translate (m : Mat4) (v : Vec3 ℝ) : Mat4 :=
  ofCols (col m 0) (col m 1) (col m 2)
    (v.x • col m 0 + v.y • col m 1 + v.z • col m 2 + col m 3)

/-- Rotation of glm, `glm::rotate(m, angle, v)`, the angle in radians. -/
noncomputable def rotate (m : Mat4) (angle : ℝ) (v : Vec3 ℝ) : Mat4 :=
  let a := angle
  let c := Real.cos a
  let s := Real.sin a
  let axis := normalize v
  let temp := Vec3.smul (1 - c) axis
  let r00 := c + temp.x * axis.x
  let r01 := temp.x * axis.y + s * axis.z
  let r02 := temp.x * axis.z - s * axis.y
  let r10 := temp.y * axis.x - s * axis.z
  let r11 := c + temp.y * axis.y
  let r12 := temp.y * axis.z + s * axis.x
  let r20 := temp.z * axis.x + s * axis.y
  let r21 := temp.z * axis.y - s * axis.x
  let r22 := c + temp.z * axis.z
  ofCols
    (r00 • col m 0 + r01 • col m 1 + r02 • col m 2)
    (r10 • col m 0 + r11 • col m 1 + r12 • col m 2)
    (r20 • col m 0 + r21 • col m 1 + r22 • col m 2)
    (col m 3)

/-- Scaling of glm, `glm::scale(m, v)`. -/
def scale (m : Mat4) (v : Vec3 ℝ) : Mat4 :=
  ofCols (v.x • col m 0) (v.y • col m 1) (v.z • col m 2) (col m 3)

/-- The translation component of a transform: the xyz of its fourth column. -/
def translation (m : Mat4) : Vec3 ℝ :=
  ⟨m 0 3, m 1 3, m 2 3⟩

/-! ## Model matrices of the render loop (main.cpp, lines 346-370 and 468-604) -/

/-- Shadow pass, Earth (main.cpp 347-349). -/
noncomputable def shadowEarthModel (state : GLState ℝ) : Mat4 :=
  let earthRotation := state.currentTime * 0.2
  let earthModel := rotate 1 earthRotation ⟨0, 1, 0⟩
  scale earthModel (Vec3.splat 1.0)

/-- Shadow pass, Moon (main.cpp 353-359); `earthModel` is the shadow pass's
Earth matrix, still in scope. -/
noncomputable def shadowMoonModel (state : GLState ℝ) : Mat4 :=
  let earthModel := shadowEarthModel state
  let moonOrbitAngle := state.currentTime * 0.5
  let moonRotation := state.currentTime * 0.3
  let moonOrbit := rotate 1 moonOrbitAngle ⟨0, 1, 0⟩
  let moonTranslate := translate 1 ⟨5.0, 0.0, 0.0⟩
  let moonRotate := rotate 1 moonRotation ⟨0, 1, 0⟩
  let moonScale := scale 1 (Vec3.splat 0.27)
  earthModel * moonOrbit * moonTranslate * moonRotate * moonScale

/-- Shadow pass, Moon's-moon (main.cpp 363-369); `moonModel` is the shadow
pass's Moon matrix, still in scope. -/
noncomputable def shadowMoonMoonModel (state : GLState ℝ) : Mat4 :=
  let moonModel := shadowMoonModel state
  let moonMoonOrbitAngle := state.currentTime * 1.0
  let moonMoonRotation := state.currentTime * 0.7
  let moonMoonOrbit := rotate 1 moonMoonOrbitAngle ⟨0, 1, 0⟩
  let moonMoonTranslate := translate 1 ⟨2.0, 0.0, 0.0⟩
  let moonMoonRotate := rotate 1 moonMoonRotation ⟨0, 1, 0⟩
  let moonMoonScale := scale 1 (Vec3.splat 0.5)
  moonModel * moonMoonOrbit * moonMoonTranslate * moonMoonRotate * moonMoonScale

/-- Main pass, Earth (main.cpp 468-470). -/
noncomputable def mainEarthModel (state : GLState ℝ) : Mat4 :=
  let earthRotation := state.currentTime * 0.2
  let earthModel := rotate 1 earthRotation ⟨0, 1, 0⟩
  scale earthModel (Vec3.splat 1.0)

/-- Main pass, Moon (main.cpp 546-559); the block rebuilds the Earth prefix
without the scale. -/
noncomputable def mainMoonModel (state : GLState ℝ) : Mat4 :=
  let moonOrbitAngle := state.currentTime * 0.5
  let moonRotation := state.currentTime * 0.3
  let earthRotation := state.currentTime * 0.2
  let earthModel := rotate 1 earthRotation ⟨0, 1, 0⟩
  let moonOrbit := rotate 1 moonOrbitAngle ⟨0, 1, 0⟩
  let moonTranslate := translate 1 ⟨5.0, 0.0, 0.0⟩
  let moonRotate := rotate 1 moonRotation ⟨0, 1, 0⟩
  let moonScale := scale 1 (Vec3.splat 0.27)
  earthModel * moonOrbit * moonTranslate * moonRotate * moonScale

/-- Main pass, the Moon matrix rebuilt inside the Moon's-moon block
(main.cpp 582-596). -/
noncomputable def mainMoonMoonParent (state : GLState ℝ) : Mat4 :=
  let moonOrbitAngle := state.currentTime * 0.5
  let moonRotation := state.currentTime * 0.3
  let earthRotation := state.currentTime * 0.2
  let earthModel := rotate 1 earthRotation ⟨0, 1, 0⟩
  let moonOrbit := rotate 1 moonOrbitAngle ⟨0, 1, 0⟩
  let moonTranslate := translate 1 ⟨5.0, 0.0, 0.0⟩
  let moonRotate := rotate 1 moonRotation ⟨0, 1, 0⟩
  let moonScale := scale 1 (Vec3.splat 0.27)
  earthModel * moonOrbit * moonTranslate * moonRotate * moonScale

/-- Main pass, Moon's-moon (main.cpp 582-604). -/
noncomputable def mainMoonMoonModel (state : GLState ℝ) : Mat4 :=
  let moonMoonOrbitAngle := state.currentTime * 1.0
  let moonMoonRotation := state.currentTime * 0.7
  let moonModel := mainMoonMoonParent state
  let moonMoonOrbit := rotate 1 moonMoonOrbitAngle ⟨0, 1, 0⟩
  let moonMoonTranslate := translate 1 ⟨2.0, 0.0, 0.0⟩
  let moonMoonRotate := rotate 1 moonMoonRotation ⟨0, 1, 0⟩
  let moonMoonScale := scale 1 (Vec3.splat 0.5)
  moonModel * moonMoonOrbit * moonMoonTranslate * moonMoonRotate * moonMoonScale

/-- The factor the Moon's-moon block appends to the Moon matrix
(main.cpp 363-369 and 599-604): orbit, offset, spin and scale. -/
noncomputable def moonMoonLocal (time : ℝ) : Mat4 :=
  rotate 1 (time * 1.0) ⟨0, 1, 0⟩ * translate 1 ⟨2.0, 0.0, 0.0⟩
    * rotate 1 (time * 0.7) ⟨0, 1, 0⟩ * scale 1 (Vec3.splat 0.5)

/-! ## Light of the frame loop (main.cpp, lines 300-317) -/

/-- The vector the frame loop hands to `normalize` for the light direction
(main.cpp 301-302): `vec3(cos(sunAngle), 0, sin(sunAngle))`. -/
noncomputable def sunVector (state : GLState ℝ) : Vec3 ℝ :=
  let sunAngle := state.currentTime * 0.1
  ⟨Real.cos sunAngle, 0.0, Real.sin sunAngle⟩

/-- The light direction `lightDir` (main.cpp 302). -/
noncomputable def lightDir (state : GLState ℝ) : Vec3 ℝ :=
  normalize (sunVector state)

/-- The world up vector `lightUp` of the shadow pass (main.cpp 309). -/
def lightUp : Vec3 ℝ :=
  ⟨0.0, 1.0, 0.0⟩

/-- The light's right vector `lightRight` (main.cpp 310). -/
noncomputable def lightRight (state : GLState ℝ) : Vec3 ℝ :=
  normalize (Vec3.cross lightUp (lightDir state))

/-- The up vector `lightActualUp` handed to `lookAt` (main.cpp 311). -/
noncomputable def lightActualUp (state : GLState ℝ) : Vec3 ℝ :=
  Vec3.cross (lightDir state) (lightRight state)

/-! ## Event sequences

`glfwPollEvents` (main.cpp 277) delivers the pending events one after the
other; a run of events is the left fold of the callbacks over a list. -/

/-- A pointer event: a cursor move to `(x, y)` or a button change. -/
inductive MouseEvent (α : Type) where
  | move (x y : α)
  | button (button action : Int)

/-- Deliver one pointer event to its callback. -/
def MouseEvent.deliver {α : Type} [LinearOrderedField α] (state : GLState α) :
    MouseEvent α → GLState α
  | .move x y => MouseMoveCallback state x y
  | .button b a => MouseButtonCallback state b a

/-- Deliver a sequence of pointer events. -/
def runMouse {α : Type} [LinearOrderedField α] (state : GLState α)
    (events : List (MouseEvent α)) : GLState α :=
  events.foldl MouseEvent.deliver state

/-- Deliver a sequence of key events, each a pair `(key, action)`. -/
def runKeys {α : Type} [LinearOrderedField α] (state : GLState α)
    (events : List (Int × Int)) : GLState α :=
  events.foldl (fun st e => KeyboardCallback st e.1 e.2) state

/-- Deliver a sequence of scroll events, each given by its vertical amount. -/
noncomputable def runScroll (state : GLState ℝ) (events : List ℝ) : GLState ℝ :=
  events.foldl MouseScrollCallback state

/-- The state of the frame loop at simulation time `time`, every other field at
its initial value. -/
noncomputable def atTime (time : ℝ) : GLState ℝ :=
  { GLState.initial ℝ with currentTime := time }

/-- A state in the middle of a drag: the initial state with the left button held
and the first cursor move already absorbed. -/
def dragState : GLState ℚ :=
  { GLState.initial ℚ with leftMousePressed := true, firstMouse := false }

/-- The initial state switched to the Earth orbit mode. -/
noncomputable def orbitState : GLState ℝ :=
  { GLState.initial ℝ with mode := 0 }

/-- The initial state with the left button already held: the first cursor move
is still to come. -/
def pressedFirstState : GLState ℚ :=
  { GLState.initial ℚ with leftMousePressed := true }

/-- The initial state, which is in first-person mode, with only W held. -/
noncomputable def forwardState : GLState ℝ :=
  { GLState.initial ℝ with wPressed := true }

/-! ## Proof devices for the transform hierarchy -/

/-- A similarity about the Y axis: uniform scale `k`, rotation by `θ` and
translation `(px, py, pz)`.  Every factor of the model matrices has this shape. -/
noncomputable def simY (k θ px py pz : ℝ) : Mat4 :=
  !![k * Real.cos θ, 0, k * Real.sin θ, px;
     0, k, 0, py;
     -(k * Real.sin θ), 0, k * Real.cos θ, pz;
     0, 0, 0, 1]

/-! ## One step of each callback, field by field -/

/-- A button event does not touch pitch. -/
theorem MouseButtonCallback_pitch {α : Type} (state : GLState α) (button action : Int) :
    (MouseButtonCallback state button action).pitch = state.pitch := by
  unfold MouseButtonCallback
  split_ifs <;> rfl

/-- The clamp as a case distinction, for ordered bounds. -/
theorem clamp_eq_ite {α : Type} [LinearOrderedField α] (x lo hi : α) (h : lo ≤ hi) :
    clamp x lo hi = if hi < x then hi else if x < lo then lo else x := by
  unfold clamp
  simp only [max_def, min_def]
  split_ifs <;> first | rfl | linarith

/-- A clamped value lies between the bounds. -/
theorem clamp_mem {α : Type} [LinearOrderedField α] {lo hi : α} (h : lo ≤ hi) (x : α) :
    lo ≤ clamp x lo hi ∧ clamp x lo hi ≤ hi := by
  unfold clamp
  exact ⟨le_min (le_max_right _ _) h, min_le_right _ _⟩

/-- The pitch after a cursor move. -/
theorem MouseMoveCallback_pitch {α : Type} [LinearOrderedField α] (state : GLState α)
    (x y : α) :
    (MouseMoveCallback state x y).pitch =
      if state.leftMousePressed then
        clamp (state.pitch + ((if state.firstMouse then y else state.lastMouseY) - y) * 0.1)
          (-89) 89
      else state.pitch := by
  have h89 : (-89 : α) ≤ 89 := by norm_num
  rw [clamp_eq_ite _ _ _ h89]
  rcases state with ⟨w, h, g, p, u, yw, pt, cd, lp, lx, ly, fm, wp, ap, sp, dp, ts, ct, md⟩
  cases fm <;> cases lp
  · simp [MouseMoveCallback]
  · by_cases h1 : 89 < pt + (ly - y) * 0.1
    · have h2 : ¬ (89 : α) < -89 := by norm_num
      simp [MouseMoveCallback, h1, h2]
    · by_cases h2 : pt + (ly - y) * 0.1 < -89 <;> simp [MouseMoveCallback, h1, h2]
  · simp [MouseMoveCallback]
  · by_cases h1 : 89 < pt
    · have h2 : ¬ (89 : α) < -89 := by norm_num
      simp [MouseMoveCallback, h1, h2]
    · by_cases h2 : pt < -89 <;> simp [MouseMoveCallback, h1, h2]

/-- The timeSpeed after a key event. -/
theorem KeyboardCallback_timeSpeed {α : Type} [LinearOrderedField α] (state : GLState α)
    (key action : Int) :
    (KeyboardCallback state key action).timeSpeed =
      if action = GLFW_PRESS ∧ key = GLFW_KEY_L then
        (if state.timeSpeed + 0.5 > 5 then -2 else state.timeSpeed + 0.5)
      else if action = GLFW_PRESS ∧ key = GLFW_KEY_K then
        (if state.timeSpeed - 0.5 < -2 then 0.1 else state.timeSpeed - 0.5)
      else state.timeSpeed := by
  by_cases ha : action = GLFW_PRESS
  · subst ha
    by_cases hL : key = GLFW_KEY_L
    · subst hL
      simp [KeyboardCallback, GLFW_KEY_L, GLFW_KEY_K]
    · by_cases hK : key = GLFW_KEY_K
      · subst hK
        simp [KeyboardCallback, GLFW_KEY_L, GLFW_KEY_K]
      · simp [KeyboardCallback, hL, hK]
  · simp only [KeyboardCallback, ha, if_false, false_and]
    split_ifs <;> rfl

/-- The mode after a key event. -/
theorem KeyboardCallback_mode {α : Type} [LinearOrderedField α] (state : GLState α)
    (key action : Int) :
    (KeyboardCallback state key action).mode =
      if action = GLFW_PRESS ∧ key = GLFW_KEY_P then ((state.mode + 1) % 2 ^ 32) % 4
      else if action = GLFW_PRESS ∧ key = GLFW_KEY_O then
        (if state.mode = 0 then 3 else state.mode - 1)
      else state.mode := by
  by_cases ha : action = GLFW_PRESS
  · subst ha
    by_cases hP : key = GLFW_KEY_P
    · subst hP
      simp [KeyboardCallback, GLFW_KEY_P, GLFW_KEY_O]
    · by_cases hO : key = GLFW_KEY_O
      · subst hO
        simp [KeyboardCallback, GLFW_KEY_P, GLFW_KEY_O]
      · simp [KeyboardCallback, hP, hO]
  · simp only [KeyboardCallback, ha, if_false, false_and]
    split_ifs <;> rfl

/-- The orbit distance after a scroll event. -/
theorem MouseScrollCallback_cameraDistance (state : GLState ℝ) (dy : ℝ) :
    (MouseScrollCallback state dy).cameraDistance =
      if state.mode = 3 then state.cameraDistance
      else clamp (state.cameraDistance - dy * 0.5) 2 50 := by
  unfold MouseScrollCallback
  split_ifs <;> rfl

/-- A scroll event does not change the mode. -/
theorem MouseScrollCallback_mode (state : GLState ℝ) (dy : ℝ) :
    (MouseScrollCallback state dy).mode = state.mode := by
  unfold MouseScrollCallback
  split_ifs <;> rfl

/-- One pointer event keeps pitch in [-89, 89]. -/
theorem MouseEvent.deliver_pitch_mem {α : Type} [LinearOrderedField α] (state : GLState α)
    (e : MouseEvent α)
    (h : -89 ≤ state.pitch ∧ state.pitch ≤ 89) :
    -89 ≤ (MouseEvent.deliver state e).pitch ∧ (MouseEvent.deliver state e).pitch ≤ 89 := by
  cases e with
  | move x y =>
    simp only [MouseEvent.deliver]
    rw [MouseMoveCallback_pitch]
    by_cases hl : state.leftMousePressed = true
    · rw [if_pos hl]
      exact clamp_mem (by norm_num) _
    · rw [if_neg hl]
      exact h
  | button b a =>
    simp only [MouseEvent.deliver]
    rw [MouseButtonCallback_pitch]
    exact h

/-- A run of pointer events keeps pitch in [-89, 89]. -/
theorem runMouse_pitch_mem {α : Type} [LinearOrderedField α] (events : List (MouseEvent α)) :
    ∀ state : GLState α, (-89 ≤ state.pitch ∧ state.pitch ≤ 89) →
      -89 ≤ (runMouse state events).pitch ∧ (runMouse state events).pitch ≤ 89 := by
  induction events with
  | nil => intro state h; exact h
  | cons e rest ih =>
    intro state h
    exact ih (MouseEvent.deliver state e) (MouseEvent.deliver_pitch_mem state e h)

/-- One key event keeps timeSpeed in [-2, 5]. -/
theorem KeyboardCallback_timeSpeed_mem {α : Type} [LinearOrderedField α] (state : GLState α)
    (key action : Int)
    (h : -2 ≤ state.timeSpeed ∧ state.timeSpeed ≤ 5) :
    -2 ≤ (KeyboardCallback state key action).timeSpeed
      ∧ (KeyboardCallback state key action).timeSpeed ≤ 5 := by
  rw [KeyboardCallback_timeSpeed]
  obtain ⟨h1, h2⟩ := h
  split_ifs <;> constructor <;> norm_num at * <;> linarith

/-- A run of key events keeps timeSpeed in [-2, 5]. -/
theorem runKeys_timeSpeed_mem {α : Type} [LinearOrderedField α] (events : List (Int × Int)) :
    ∀ state : GLState α, (-2 ≤ state.timeSpeed ∧ state.timeSpeed ≤ 5) →
      -2 ≤ (runKeys state events).timeSpeed ∧ (runKeys state events).timeSpeed ≤ 5 := by
  induction events with
  | nil => intro state h; exact h
  | cons e rest ih =>
    intro state h
    exact ih (KeyboardCallback state e.1 e.2) (KeyboardCallback_timeSpeed_mem state e.1 e.2 h)

/-- The yaw after a cursor move. -/
theorem MouseMoveCallback_yaw {α : Type} [LinearOrderedField α] (state : GLState α)
    (x y : α) :
    (MouseMoveCallback state x y).yaw =
      if state.leftMousePressed then
        state.yaw + (x - (if state.firstMouse then x else state.lastMouseX)) * 0.1
      else state.yaw := by
  rcases state with ⟨w, h, g, p, u, yw, pt, cd, lp, lx, ly, fm, wp, ap, sp, dp, ts, ct, md⟩
  cases fm <;> cases lp
  · simp [MouseMoveCallback]
  · by_cases h1 : 89 < pt + (ly - y) * 0.1
    · have h2 : ¬ (89 : α) < -89 := by norm_num
      simp [MouseMoveCallback, h1, h2]
    · by_cases h2 : pt + (ly - y) * 0.1 < -89 <;> simp [MouseMoveCallback, h1, h2]
  · simp [MouseMoveCallback]
  · by_cases h1 : 89 < pt
    · have h2 : ¬ (89 : α) < -89 := by norm_num
      simp [MouseMoveCallback, h1, h2]
    · by_cases h2 : pt < -89 <;> simp [MouseMoveCallback, h1, h2]

/-- The cursor reference and the first-move flag after a cursor move. -/
theorem MouseMoveCallback_reference {α : Type} [LinearOrderedField α] (state : GLState α)
    (x y : α) :
    (MouseMoveCallback state x y).lastMouseX = x
    ∧ (MouseMoveCallback state x y).lastMouseY = y
    ∧ (MouseMoveCallback state x y).firstMouse = false := by
  rcases state with ⟨w, h, g, p, u, yw, pt, cd, lp, lx, ly, fm, wp, ap, sp, dp, ts, ct, md⟩
  cases fm <;> cases lp
  · simp [MouseMoveCallback]
  · by_cases h1 : 89 < pt + (ly - y) * 0.1
    · have h2 : ¬ (89 : α) < -89 := by norm_num
      simp [MouseMoveCallback, h1, h2]
    · by_cases h2 : pt + (ly - y) * 0.1 < -89 <;> simp [MouseMoveCallback, h1, h2]
  · simp [MouseMoveCallback]
  · by_cases h1 : 89 < pt
    · have h2 : ¬ (89 : α) < -89 := by norm_num
      simp [MouseMoveCallback, h1, h2]
    · by_cases h2 : pt < -89 <;> simp [MouseMoveCallback, h1, h2]

/-- The state a scroll event produces in first-person mode. -/
theorem MouseScrollCallback_fps (state : GLState ℝ) (dy : ℝ) (h : state.mode = 3) :
    MouseScrollCallback state dy =
      { state with
        pos := Vec3.add state.pos (Vec3.smul (dy * 0.5) (front state.yaw state.pitch))
        gaze := Vec3.add (Vec3.add state.pos (Vec3.smul (dy * 0.5) (front state.yaw state.pitch)))
          (front state.yaw state.pitch) } := by
  simp [MouseScrollCallback, h]

/-- The state a scroll event produces outside first-person mode. -/
theorem MouseScrollCallback_orbit (state : GLState ℝ) (dy : ℝ) (h : state.mode ≠ 3) :
    MouseScrollCallback state dy =
      { state with cameraDistance := clamp (state.cameraDistance - dy * 0.5) 2 50 } := by
  simp [MouseScrollCallback, h]

/-- Minus ninety degrees is minus a quarter turn. -/
theorem radians_neg_ninety : radians (-90) = -(Real.pi / 2) := by
  unfold radians
  ring

/-- Zero degrees is the zero angle. -/
theorem radians_zero : radians 0 = 0 := by
  simp [radians]

/-- The view direction for yaw -90 and pitch 0 is the negative Z axis. -/
theorem front_neg_ninety_zero : front (-90) 0 = ⟨0, 0, -1⟩ := by
  simp [front, radians_neg_ninety, radians_zero, normalize, Vec3.dot, Vec3.smul]

/-- The camera position and gaze `UpdateOrbitCamera` computes. -/
theorem UpdateOrbitCamera_pos_gaze (state : GLState ℝ) :
    (UpdateOrbitCamera state).pos =
      ⟨(GetPlanetPosition (state.mode : Int) state.currentTime).x
          + state.cameraDistance * Real.cos (radians state.yaw)
            * Real.cos (radians (clamp state.pitch (-89) 89)),
        (GetPlanetPosition (state.mode : Int) state.currentTime).y
          + state.cameraDistance * Real.sin (radians (clamp state.pitch (-89) 89)),
        (GetPlanetPosition (state.mode : Int) state.currentTime).z
          + state.cameraDistance * Real.sin (radians state.yaw)
            * Real.cos (radians (clamp state.pitch (-89) 89))⟩
    ∧ (UpdateOrbitCamera state).gaze = GetPlanetPosition (state.mode : Int) state.currentTime :=
  ⟨rfl, rfl⟩

/-! ## The transform hierarchy in closed form -/

/-- The Y axis is already a unit vector. -/
theorem normalize_unitY : normalize (⟨0, 1, 0⟩ : Vec3 ℝ) = ⟨0, 1, 0⟩ := by
  simp [normalize, Vec3.dot, Vec3.smul]

/-- The rotation about Y the render loop builds, entry by entry. -/
theorem rotate_one_unitY (a : ℝ) : rotate 1 a ⟨0, 1, 0⟩ = simY 1 a 0 0 0 := by
  unfold rotate
  simp only [normalize_unitY]
  ext i j
  fin_cases i <;> fin_cases j <;>
    simp [simY, ofCols, col, Vec3.smul, Matrix.one_apply, Matrix.vecHead, Matrix.vecTail]

/-- The translation matrix built from the identity. -/
theorem translate_one (v : Vec3 ℝ) : translate 1 v = simY 1 0 v.x v.y v.z := by
  ext i j
  fin_cases i <;> fin_cases j <;>
    simp [translate, simY, ofCols, col, Matrix.one_apply, Matrix.vecHead, Matrix.vecTail]

/-- The uniform scale matrix built from the identity. -/
theorem scale_one_splat (k : ℝ) : scale 1 (Vec3.splat k) = simY k 0 0 0 0 := by
  ext i j
  fin_cases i <;> fin_cases j <;>
    simp [scale, simY, ofCols, col, Vec3.splat, Matrix.one_apply, Matrix.vecHead,
      Matrix.vecTail]

/-- Scaling by `vec3(1.0f)` changes nothing. -/
theorem scale_splat_one (m : Mat4) : scale m (Vec3.splat 1.0) = m := by
  ext i j
  fin_cases i <;> fin_cases j <;> norm_num [scale, ofCols, col, Vec3.splat] <;> rfl

/-- Similarities about Y compose: scales multiply, angles add, and the second
translation is rotated and scaled by the first factor. -/
theorem simY_mul (k1 θ1 px py pz k2 θ2 qx qy qz : ℝ) :
    simY k1 θ1 px py pz * simY k2 θ2 qx qy qz =
      simY (k1 * k2) (θ1 + θ2)
        (px + k1 * (Real.cos θ1 * qx + Real.sin θ1 * qz))
        (py + k1 * qy)
        (pz + k1 * (-(Real.sin θ1) * qx + Real.cos θ1 * qz)) := by
  ext i j
  fin_cases i <;> fin_cases j <;>
    simp [simY, Matrix.mul_apply, Fin.sum_univ_four, Real.cos_add, Real.sin_add,
      Matrix.vecHead, Matrix.vecTail] <;> ring

/-- The translation component of a similarity. -/
theorem translation_simY (k θ px py pz : ℝ) :
    translation (simY k θ px py pz) = ⟨px, py, pz⟩ := by
  simp [translation, simY]

/-- Earth's matrix in the shadow pass is a pure rotation. -/
theorem shadowEarthModel_eq (state : GLState ℝ) :
    shadowEarthModel state = simY 1 (state.currentTime * 0.2) 0 0 0 := by
  simp only [shadowEarthModel, scale_splat_one, rotate_one_unitY]

/-- Earth's matrix in the main pass is a pure rotation. -/
theorem mainEarthModel_eq (state : GLState ℝ) :
    mainEarthModel state = simY 1 (state.currentTime * 0.2) 0 0 0 := by
  simp only [mainEarthModel, scale_splat_one, rotate_one_unitY]

/-- The Moon's matrix in closed form: scale 0.27, angle `t`, centre on the circle
of radius 5 at angle `0.7 t`. -/
theorem shadowMoonModel_eq (state : GLState ℝ) :
    shadowMoonModel state =
      simY 0.27 state.currentTime
        (5 * Real.cos (0.7 * state.currentTime)) 0
        (-(5 * Real.sin (0.7 * state.currentTime))) := by
  simp only [shadowMoonModel, shadowEarthModel, scale_splat_one, rotate_one_unitY,
    translate_one, scale_one_splat, simY_mul]
  have e1 : state.currentTime * 0.2 + state.currentTime * 0.5 + 0
      + state.currentTime * 0.3 + 0 = state.currentTime := by ring
  have e2 : state.currentTime * 0.2 + state.currentTime * 0.5 = 0.7 * state.currentTime := by
    ring
  rw [e1, e2]
  norm_num
  ring_nf

/-- The Moon's-moon matrix in closed form. -/
theorem shadowMoonMoonModel_eq (state : GLState ℝ) :
    shadowMoonMoonModel state =
      simY 0.135 (2.7 * state.currentTime)
        (5 * Real.cos (0.7 * state.currentTime) + 0.54 * Real.cos (2 * state.currentTime)) 0
        (-(5 * Real.sin (0.7 * state.currentTime))
          - 0.54 * Real.sin (2 * state.currentTime)) := by
  simp only [shadowMoonMoonModel, shadowMoonModel_eq, rotate_one_unitY,
    translate_one, scale_one_splat, simY_mul]
  have e1 : state.currentTime + state.currentTime * 1.0 + 0
      + state.currentTime * 0.7 + 0 = 2.7 * state.currentTime := by ring
  have e2 : state.currentTime + state.currentTime * 1.0 = 2 * state.currentTime := by
    ring
  rw [e1, e2]
  norm_num
  ring_nf

/-- The main pass rebuilds the Moon matrix of the shadow pass. -/
theorem mainMoonModel_eq_shadow (state : GLState ℝ) :
    mainMoonModel state = shadowMoonModel state := by
  simp only [mainMoonModel, shadowMoonModel, shadowEarthModel, scale_splat_one]

/-- The Moon matrix rebuilt in the Moon's-moon block is that of the shadow pass. -/
theorem mainMoonMoonParent_eq_shadow (state : GLState ℝ) :
    mainMoonMoonParent state = shadowMoonModel state := by
  simp only [mainMoonMoonParent, shadowMoonModel, shadowEarthModel, scale_splat_one]

/-- The main pass rebuilds the Moon's-moon matrix of the shadow pass. -/
theorem mainMoonMoonModel_eq_shadow (state : GLState ℝ) :
    mainMoonMoonModel state = shadowMoonMoonModel state := by
  simp only [mainMoonMoonModel, shadowMoonMoonModel, mainMoonMoonParent_eq_shadow]

/-- A point at angle `θ` of the circle of radius `r` about a centre in the XZ
plane is at distance `r` from the centre. -/
theorem distance_circle (ax az r θ : ℝ) (hr : 0 ≤ r) :
    distance ⟨ax, 0, az⟩ ⟨ax + r * Real.cos θ, 0, az - r * Real.sin θ⟩ = r := by
  have h : Vec3.dot (Vec3.sub ⟨ax + r * Real.cos θ, 0, az - r * Real.sin θ⟩ ⟨ax, 0, az⟩)
      (Vec3.sub ⟨ax + r * Real.cos θ, 0, az - r * Real.sin θ⟩ ⟨ax, 0, az⟩) = r ^ 2 := by
    simp only [Vec3.dot, Vec3.sub]
    nlinarith [Real.sin_sq_add_cos_sq θ]
  rw [distance, length, h]
  exact Real.sqrt_sq hr

/-- The distance between the centres of the Moon and of Moon's-moon. -/
theorem shadow_moonMoon_distance (state : GLState ℝ) :
    distance (translation (shadowMoonModel state))
      (translation (shadowMoonMoonModel state)) = 0.54 := by
  rw [shadowMoonModel_eq, shadowMoonMoonModel_eq, translation_simY, translation_simY]
  exact distance_circle _ _ 0.54 (2 * state.currentTime) (by norm_num)

/-! ## The sphere of the orbit camera and the light frame in closed form -/

/-- A point offset from `c` by `d` times the spherical direction of azimuth `a`
and elevation `v` is at distance `d` from `c`, for `d ≥ 0`. -/
theorem distance_spherical (c : Vec3 ℝ) (d a v : ℝ) (hd : 0 ≤ d) :
    distance
      ⟨c.x + d * Real.cos a * Real.cos v, c.y + d * Real.sin v,
        c.z + d * Real.sin a * Real.cos v⟩ c = d := by
  have h : Vec3.dot
      (Vec3.sub c ⟨c.x + d * Real.cos a * Real.cos v, c.y + d * Real.sin v,
        c.z + d * Real.sin a * Real.cos v⟩)
      (Vec3.sub c ⟨c.x + d * Real.cos a * Real.cos v, c.y + d * Real.sin v,
        c.z + d * Real.sin a * Real.cos v⟩) = d ^ 2 := by
    simp only [Vec3.dot, Vec3.sub]
    have ha := Real.sin_sq_add_cos_sq a
    have hv := Real.sin_sq_add_cos_sq v
    have : d ^ 2 = d ^ 2 * ((Real.sin a ^ 2 + Real.cos a ^ 2) * Real.cos v ^ 2
        + Real.sin v ^ 2) := by
      rw [ha, one_mul, add_comm, hv, mul_one]
    rw [this]
    ring
  rw [distance, length, h]
  exact Real.sqrt_sq hd

/-- The vector handed to `normalize` for the light has squared length 1. -/
theorem sunVector_dot (state : GLState ℝ) :
    Vec3.dot (sunVector state) (sunVector state) = 1 := by
  simp only [sunVector, Vec3.dot]
  have := Real.sin_sq_add_cos_sq (state.currentTime * 0.1)
  nlinarith

/-- The light direction in closed form. -/
theorem lightDir_eq (state : GLState ℝ) :
    lightDir state
      = ⟨Real.cos (state.currentTime * 0.1), 0, Real.sin (state.currentTime * 0.1)⟩ := by
  rw [lightDir, normalize, sunVector_dot]
  norm_num [sunVector, Vec3.smul]

/-- The cross product the shadow pass normalises, in closed form. -/
theorem cross_lightUp_lightDir (state : GLState ℝ) :
    Vec3.cross lightUp (lightDir state)
      = ⟨Real.sin (state.currentTime * 0.1), 0, -Real.cos (state.currentTime * 0.1)⟩ := by
  rw [lightDir_eq]
  norm_num [Vec3.cross, lightUp]

/-- The light's right vector in closed form. -/
theorem lightRight_eq (state : GLState ℝ) :
    lightRight state
      = ⟨Real.sin (state.currentTime * 0.1), 0, -Real.cos (state.currentTime * 0.1)⟩ := by
  have h : Vec3.dot (Vec3.cross lightUp (lightDir state))
      (Vec3.cross lightUp (lightDir state)) = 1 := by
    rw [cross_lightUp_lightDir]
    simp only [Vec3.dot]
    have := Real.sin_sq_add_cos_sq (state.currentTime * 0.1)
    nlinarith
  rw [lightRight, normalize, h, cross_lightUp_lightDir]
  simp [Vec3.smul]

/-- The up vector of the light view is the world Y axis. -/
theorem lightActualUp_eq (state : GLState ℝ) : lightActualUp state = ⟨0, 1, 0⟩ := by
  rw [lightActualUp, lightDir_eq, lightRight_eq]
  simp only [Vec3.cross]
  have := Real.sin_sq_add_cos_sq (state.currentTime * 0.1)
  ext
  · simp
  · simp only [neg_mul, sub_neg_eq_add]
    nlinarith
  · simp

/-! ## The transform hierarchy and the position query -/

/-- C1 fails on the code.  At time 0 `GetPlanetPosition 2` is (7, 0, 0) while
the Moon's-moon matrix of both passes has translation (5.54, 0, 0); at time π
`GetPlanetPosition 1` has z = 5 while the Moon matrix of both passes has a
negative z. -/
theorem GetPlanetPosition_off_model_translation :
    GetPlanetPosition 2 0 = ⟨7, 0, 0⟩
    ∧ translation (shadowMoonMoonModel (atTime 0)) = ⟨5.54, 0, 0⟩
    ∧ translation (mainMoonMoonModel (atTime 0)) = ⟨5.54, 0, 0⟩
    ∧ (GetPlanetPosition 1 Real.pi).z = 5
    ∧ (translation (shadowMoonModel (atTime Real.pi))).z < 0
    ∧ (translation (mainMoonModel (atTime Real.pi))).z < 0 := by
  have h2 : translation (shadowMoonMoonModel (atTime 0)) = ⟨5.54, 0, 0⟩ := by
    rw [shadowMoonMoonModel_eq, translation_simY]
    simp only [atTime]
    norm_num
  have hpos : 0 < Real.sin (0.7 * Real.pi) := by
    apply Real.sin_pos_of_pos_of_lt_pi
    · have := Real.pi_pos
      linarith
    · have := Real.pi_pos
      linarith
  have h1 : (translation (shadowMoonModel (atTime Real.pi))).z < 0 := by
    rw [shadowMoonModel_eq, translation_simY]
    simp only [atTime]
    linarith
  refine ⟨?_, h2, ?_, ?_, h1, ?_⟩
  · simp [GetPlanetPosition, Vec3.add]
    norm_num
  · rw [mainMoonMoonModel_eq_shadow]; exact h2
  · have e : Real.pi * 0.5 = Real.pi / 2 := by ring
    simp [GetPlanetPosition, e]
  · rw [mainMoonModel_eq_shadow]; exact h1

/-- C2 fails as stated: at time 0 the centres of the Moon and of Moon's-moon are
not at distance 2. -/
theorem moonMoon_distance_ne_two :
    distance (translation (shadowMoonModel (GLState.initial ℝ)))
      (translation (shadowMoonMoonModel (GLState.initial ℝ))) ≠ 2 := by
  rw [shadow_moonMoon_distance]
  norm_num

/-- C2, amended: at every time the centre of Moon's-moon is at Euclidean
distance exactly 0.54 = 0.27 * 2 from the centre of the Moon, in the shadow pass
and in the main pass: the offset (2, 0, 0) is applied in the Moon's frame,
which carries the Moon's scale 0.27. -/
theorem moonMoon_centre_at_distance (state : GLState ℝ) :
    distance (translation (shadowMoonModel state))
        (translation (shadowMoonMoonModel state)) = 0.54
    ∧ distance (translation (mainMoonModel state))
        (translation (mainMoonMoonModel state)) = 0.54 := by
  rw [mainMoonModel_eq_shadow, mainMoonMoonModel_eq_shadow]
  exact ⟨shadow_moonMoon_distance state, shadow_moonMoon_distance state⟩

/-- C3: at every time the Moon's centre, the translation of its model matrix in
the shadow pass and in the main pass, is at Euclidean distance exactly 5 from
Earth's centre, which is the origin, and has y-coordinate 0. -/
theorem moon_centre_at_distance_five (state : GLState ℝ) :
    distance (translation (shadowEarthModel state)) (translation (shadowMoonModel state)) = 5
    ∧ distance ⟨0, 0, 0⟩ (translation (shadowMoonModel state)) = 5
    ∧ (translation (shadowMoonModel state)).y = 0
    ∧ distance (translation (mainEarthModel state)) (translation (mainMoonModel state)) = 5
    ∧ distance ⟨0, 0, 0⟩ (translation (mainMoonModel state)) = 5
    ∧ (translation (mainMoonModel state)).y = 0 := by
  have key : distance ⟨0, 0, 0⟩ (translation (shadowMoonModel state)) = 5 := by
    rw [shadowMoonModel_eq, translation_simY]
    have := distance_circle 0 0 5 (0.7 * state.currentTime) (by norm_num)
    simpa using this
  rw [mainMoonModel_eq_shadow, mainEarthModel_eq, shadowEarthModel_eq, translation_simY]
  refine ⟨key, key, ?_, key, key, ?_⟩ <;>
    rw [shadowMoonModel_eq, translation_simY]

/-- C4: at every time the Moon's-moon matrix is the Moon matrix times
`moonMoonLocal currentTime`, a factor that is a function of the time alone;
in the shadow pass and in the main pass. -/
theorem moonMoon_has_moon_prefix (state : GLState ℝ) :
    shadowMoonMoonModel state = shadowMoonModel state * moonMoonLocal state.currentTime
    ∧ mainMoonMoonModel state = mainMoonMoonParent state * moonMoonLocal state.currentTime
    ∧ mainMoonMoonModel state = mainMoonModel state * moonMoonLocal state.currentTime := by
  refine ⟨?_, ?_, ?_⟩
  · simp only [shadowMoonMoonModel, moonMoonLocal, Matrix.mul_assoc]
  · simp only [mainMoonMoonModel, moonMoonLocal, Matrix.mul_assoc]
  · simp only [mainMoonMoonModel, moonMoonLocal, Matrix.mul_assoc, mainMoonMoonParent,
      mainMoonModel]

/-- C5: at every time Earth's model matrix, in the shadow pass and in the main
pass, has fourth column (0, 0, 0, 1), so its translation is zero, and
`GetPlanetPosition 0` is the origin. -/
theorem earth_has_zero_translation (state : GLState ℝ) (time : ℝ) :
    col (shadowEarthModel state) 3 = ![0, 0, 0, 1]
    ∧ col (mainEarthModel state) 3 = ![0, 0, 0, 1]
    ∧ translation (shadowEarthModel state) = ⟨0, 0, 0⟩
    ∧ translation (mainEarthModel state) = ⟨0, 0, 0⟩
    ∧ GetPlanetPosition 0 time = ⟨0, 0, 0⟩ := by
  rw [shadowEarthModel_eq, mainEarthModel_eq, translation_simY]
  have hc : col (simY 1 (state.currentTime * 0.2) 0 0 0) 3 = ![0, 0, 0, 1] := by
    funext i
    fin_cases i <;> simp [col, simY]
  exact ⟨hc, hc, rfl, rfl, by simp [GetPlanetPosition, Vec3.splat]⟩

/-! ## Input state machine: clamping, wrapping and mode cycling -/

/-- C6: from a state whose pitch is in [-89, 89], every finite sequence of
cursor moves and button changes leaves pitch in [-89, 89]; and a move with the
left button held whose unclamped pitch `pitch + 0.1 * (lastMouseY - y)` exceeds
89 (is below -89) yields pitch exactly 89 (exactly -89).  The reference
`lastMouseY` is the one the code uses: `y` itself on the first move. -/
theorem pitch_stays_clamped {α : Type} [LinearOrderedField α] (state : GLState α)
    (h : -89 ≤ state.pitch ∧ state.pitch ≤ 89) :
    (∀ events : List (MouseEvent α),
        -89 ≤ (runMouse state events).pitch ∧ (runMouse state events).pitch ≤ 89)
    ∧ (∀ x y : α, state.leftMousePressed = true →
        89 < state.pitch + 0.1 * ((if state.firstMouse then y else state.lastMouseY) - y) →
        (MouseMoveCallback state x y).pitch = 89)
    ∧ (∀ x y : α, state.leftMousePressed = true →
        state.pitch + 0.1 * ((if state.firstMouse then y else state.lastMouseY) - y) < -89 →
        (MouseMoveCallback state x y).pitch = -89) := by
  refine ⟨fun events => runMouse_pitch_mem events state h, ?_, ?_⟩
  · intro x y hl hu
    rw [MouseMoveCallback_pitch, if_pos hl, clamp_eq_ite _ _ _ (by norm_num), if_pos]
    rw [mul_comm]; exact hu
  · intro x y hl hu
    rw [mul_comm] at hu
    rw [MouseMoveCallback_pitch, if_pos hl, clamp_eq_ite _ _ _ (by norm_num), if_neg, if_pos hu]
    have : (-89 : α) < 89 := by norm_num
    linarith

/-- Witness of C6 on the drag state: a run of three events stays in range, a
move far up settles at 89 and a move far down at -89. -/
theorem pitch_stays_clamped_witness :
    (-89 ≤ dragState.pitch ∧ dragState.pitch ≤ 89)
    ∧ (-89 ≤ (runMouse dragState
          [MouseEvent.move 0 (-2000), MouseEvent.button GLFW_MOUSE_BUTTON_LEFT GLFW_RELEASE,
            MouseEvent.move 5 7]).pitch
        ∧ (runMouse dragState
          [MouseEvent.move 0 (-2000), MouseEvent.button GLFW_MOUSE_BUTTON_LEFT GLFW_RELEASE,
            MouseEvent.move 5 7]).pitch ≤ 89)
    ∧ (MouseMoveCallback dragState 0 (-2000)).pitch = 89
    ∧ (MouseMoveCallback dragState 0 2000).pitch = -89 :=
  have hin : -89 ≤ dragState.pitch ∧ dragState.pitch ≤ 89 := by
    norm_num [dragState, GLState.initial]
  ⟨hin,
    (pitch_stays_clamped dragState hin).1 _,
    (pitch_stays_clamped dragState hin).2.1 0 (-2000) rfl
      (by norm_num [dragState, GLState.initial]),
    (pitch_stays_clamped dragState hin).2.2 0 2000 rfl
      (by norm_num [dragState, GLState.initial])⟩

/-- C7: in an orbit mode (0, 1 or 2) a scroll by `dy` sets cameraDistance to
`clamp(cameraDistance - 0.5 * dy, 2, 50)`, which is exactly 2 (exactly 50)
when the unclamped value is below 2 (above 50); hence from a distance in
[2, 50] every finite sequence of scroll events leaves it in [2, 50]. -/
theorem cameraDistance_stays_clamped (state : GLState ℝ) (h : state.mode < 3) :
    (∀ dy : ℝ, (MouseScrollCallback state dy).cameraDistance
        = clamp (state.cameraDistance - 0.5 * dy) 2 50)
    ∧ (∀ dy : ℝ, 2 ≤ (MouseScrollCallback state dy).cameraDistance
        ∧ (MouseScrollCallback state dy).cameraDistance ≤ 50)
    ∧ (∀ dy : ℝ, state.cameraDistance - 0.5 * dy < 2 →
        (MouseScrollCallback state dy).cameraDistance = 2)
    ∧ (∀ dy : ℝ, 50 < state.cameraDistance - 0.5 * dy →
        (MouseScrollCallback state dy).cameraDistance = 50)
    ∧ (∀ events : List ℝ, events ≠ [] →
        2 ≤ (runScroll state events).cameraDistance
          ∧ (runScroll state events).cameraDistance ≤ 50)
    ∧ (2 ≤ state.cameraDistance ∧ state.cameraDistance ≤ 50 →
        ∀ events : List ℝ, 2 ≤ (runScroll state events).cameraDistance
          ∧ (runScroll state events).cameraDistance ≤ 50) := by
  have hne : ¬ state.mode = 3 := by omega
  have step : ∀ s : GLState ℝ, ∀ dy : ℝ,
      (2 ≤ s.cameraDistance ∧ s.cameraDistance ≤ 50) →
      2 ≤ (MouseScrollCallback s dy).cameraDistance
        ∧ (MouseScrollCallback s dy).cameraDistance ≤ 50 := by
    intro s dy hs
    rw [MouseScrollCallback_cameraDistance]
    split_ifs
    · exact hs
    · exact clamp_mem (by norm_num) _
  have run : ∀ events : List ℝ, ∀ s : GLState ℝ,
      (2 ≤ s.cameraDistance ∧ s.cameraDistance ≤ 50) →
      2 ≤ (runScroll s events).cameraDistance ∧ (runScroll s events).cameraDistance ≤ 50 := by
    intro events
    induction events with
    | nil => intro s hs; exact hs
    | cons dy rest ih => intro s hs; exact ih (MouseScrollCallback s dy) (step s dy hs)
  have one : ∀ dy : ℝ, (MouseScrollCallback state dy).cameraDistance
      = clamp (state.cameraDistance - 0.5 * dy) 2 50 := by
    intro dy
    rw [MouseScrollCallback_cameraDistance, if_neg hne, mul_comm]
  have mem : ∀ dy : ℝ, 2 ≤ (MouseScrollCallback state dy).cameraDistance
      ∧ (MouseScrollCallback state dy).cameraDistance ≤ 50 := by
    intro dy
    rw [one]
    exact clamp_mem (by norm_num) _
  refine ⟨one, mem, ?_, ?_, ?_, fun hs events => run events state hs⟩
  · intro dy hlt
    rw [one, clamp_eq_ite _ _ _ (by norm_num), if_neg (by linarith), if_pos hlt]
  · intro dy hgt
    rw [one, clamp_eq_ite _ _ _ (by norm_num), if_pos hgt]
  · intro events hev
    cases events with
    | nil => exact absurd rfl hev
    | cons dy rest => exact run rest (MouseScrollCallback state dy) (mem dy)

/-- Witness of C7 on the Earth orbit state: a scroll by 100 settles at 2, a
scroll by -100 at 50, and a run of scrolls stays in range. -/
theorem cameraDistance_stays_clamped_witness :
    orbitState.mode < 3
    ∧ (MouseScrollCallback orbitState 100).cameraDistance = 2
    ∧ (MouseScrollCallback orbitState (-100)).cameraDistance = 50
    ∧ (2 ≤ (runScroll orbitState [100, -3, -100]).cameraDistance
        ∧ (runScroll orbitState [100, -3, -100]).cameraDistance ≤ 50) :=
  have hm : orbitState.mode < 3 := by simp [orbitState]
  ⟨hm,
    (cameraDistance_stays_clamped orbitState hm).2.2.1 100
      (by norm_num [orbitState, GLState.initial]),
    (cameraDistance_stays_clamped orbitState hm).2.2.2.1 (-100)
      (by norm_num [orbitState, GLState.initial]),
    (cameraDistance_stays_clamped orbitState hm).2.2.2.2.1 _ (by simp)⟩

/-- C8: a press of L maps timeSpeed `s` to `s + 0.5` when `s + 0.5 ≤ 5` and to
`-2` otherwise (so 5 goes to -2); a press of K maps `s` to `s - 0.5` when
`s - 0.5 ≥ -2` and to `0.1` otherwise (so -2 goes to 0.1). -/
theorem timeSpeed_step_wraps {α : Type} [LinearOrderedField α] (state : GLState α) :
    (KeyboardCallback state GLFW_KEY_L GLFW_PRESS).timeSpeed
        = (if state.timeSpeed + 0.5 ≤ 5 then state.timeSpeed + 0.5 else -2)
    ∧ (KeyboardCallback state GLFW_KEY_K GLFW_PRESS).timeSpeed
        = (if state.timeSpeed - 0.5 ≥ -2 then state.timeSpeed - 0.5 else 0.1)
    ∧ (KeyboardCallback { state with timeSpeed := 5 } GLFW_KEY_L GLFW_PRESS).timeSpeed = -2
    ∧ (KeyboardCallback { state with timeSpeed := -2 } GLFW_KEY_K GLFW_PRESS).timeSpeed
        = 0.1 := by
  refine ⟨?_, ?_, ?_, ?_⟩
  · rw [KeyboardCallback_timeSpeed]
    simp only [true_and, if_true]
    split_ifs <;> first | rfl | (exfalso; linarith)
  · rw [KeyboardCallback_timeSpeed]
    simp only [GLFW_KEY_K, GLFW_KEY_L, true_and]
    norm_num
    split_ifs <;> first | rfl | (exfalso; linarith)
  · rw [KeyboardCallback_timeSpeed]
    norm_num
  · rw [KeyboardCallback_timeSpeed]
    norm_num [GLFW_KEY_K, GLFW_KEY_L]

/-- C9: from a state whose timeSpeed is in [-2, 5], in particular the initial
one with timeSpeed 1, every finite sequence of key events (any keys, any
actions) leaves timeSpeed in [-2, 5]. -/
theorem timeSpeed_stays_in_range {α : Type} [LinearOrderedField α] (state : GLState α)
    (h : -2 ≤ state.timeSpeed ∧ state.timeSpeed ≤ 5) (events : List (Int × Int)) :
    (-2 ≤ (runKeys state events).timeSpeed ∧ (runKeys state events).timeSpeed ≤ 5)
    ∧ (-2 ≤ (runKeys (GLState.initial α) events).timeSpeed
        ∧ (runKeys (GLState.initial α) events).timeSpeed ≤ 5) := by
  refine ⟨runKeys_timeSpeed_mem events state h, runKeys_timeSpeed_mem events _ ?_⟩
  simp only [GLState.initial]
  constructor <;> norm_num

/-- Witness of C9 on the initial state: nine presses of L, which wrap once. -/
theorem timeSpeed_stays_in_range_witness :
    (-2 ≤ (GLState.initial ℚ).timeSpeed ∧ (GLState.initial ℚ).timeSpeed ≤ 5)
    ∧ (-2 ≤ (runKeys (GLState.initial ℚ)
          (List.replicate 9 (GLFW_KEY_L, GLFW_PRESS))).timeSpeed
        ∧ (runKeys (GLState.initial ℚ)
          (List.replicate 9 (GLFW_KEY_L, GLFW_PRESS))).timeSpeed ≤ 5) :=
  have hin : -2 ≤ (GLState.initial ℚ).timeSpeed ∧ (GLState.initial ℚ).timeSpeed ≤ 5 := by
    norm_num [GLState.initial]
  ⟨hin, (timeSpeed_stays_in_range (GLState.initial ℚ) hin _).1⟩

/-- C10: for a mode `m` in {0, 1, 2, 3}, a press of P sets the mode to
`(m + 1) mod 4` and a press of O to `(m + 3) mod 4`; both results are in
{0, 1, 2, 3}; O after P and P after O restore `m`; from 3, P yields 0 and
from 0, O yields 3. -/
theorem mode_cycles_mod_four {α : Type} [LinearOrderedField α] (state : GLState α)
    (h : state.mode < 4) :
    (KeyboardCallback state GLFW_KEY_P GLFW_PRESS).mode = (state.mode + 1) % 4
    ∧ (KeyboardCallback state GLFW_KEY_O GLFW_PRESS).mode = (state.mode + 3) % 4
    ∧ (KeyboardCallback state GLFW_KEY_P GLFW_PRESS).mode < 4
    ∧ (KeyboardCallback state GLFW_KEY_O GLFW_PRESS).mode < 4
    ∧ (KeyboardCallback (KeyboardCallback state GLFW_KEY_P GLFW_PRESS)
          GLFW_KEY_O GLFW_PRESS).mode = state.mode
    ∧ (KeyboardCallback (KeyboardCallback state GLFW_KEY_O GLFW_PRESS)
          GLFW_KEY_P GLFW_PRESS).mode = state.mode
    ∧ (KeyboardCallback { state with mode := 3 } GLFW_KEY_P GLFW_PRESS).mode = 0
    ∧ (KeyboardCallback { state with mode := 0 } GLFW_KEY_O GLFW_PRESS).mode = 3 := by
  have hP : ∀ s : GLState α, (KeyboardCallback s GLFW_KEY_P GLFW_PRESS).mode
      = ((s.mode + 1) % 2 ^ 32) % 4 := by
    intro s; rw [KeyboardCallback_mode]; simp
  have hO : ∀ s : GLState α, (KeyboardCallback s GLFW_KEY_O GLFW_PRESS).mode
      = if s.mode = 0 then 3 else s.mode - 1 := by
    intro s; rw [KeyboardCallback_mode]; simp [GLFW_KEY_O, GLFW_KEY_P]
  rw [hO (KeyboardCallback state GLFW_KEY_P GLFW_PRESS),
    hP (KeyboardCallback state GLFW_KEY_O GLFW_PRESS), hP, hO, hP, hO]
  simp only []
  generalize state.mode = m at h
  interval_cases m <;> simp

/-- Witness of C10 on the initial state, whose mode is 3: P yields 0, O yields 2,
and P followed by O restores 3. -/
theorem mode_cycles_mod_four_witness :
    (GLState.initial ℚ).mode < 4
    ∧ (KeyboardCallback (GLState.initial ℚ) GLFW_KEY_P GLFW_PRESS).mode = 0
    ∧ (KeyboardCallback (GLState.initial ℚ) GLFW_KEY_O GLFW_PRESS).mode = 2
    ∧ (KeyboardCallback (KeyboardCallback (GLState.initial ℚ) GLFW_KEY_P GLFW_PRESS)
          GLFW_KEY_O GLFW_PRESS).mode = 3 :=
  have hm : (GLState.initial ℚ).mode < 4 := by decide
  ⟨hm,
    (mode_cycles_mod_four (GLState.initial ℚ) hm).1,
    (mode_cycles_mod_four (GLState.initial ℚ) hm).2.1,
    (mode_cycles_mod_four (GLState.initial ℚ) hm).2.2.2.2.1⟩

/-! ## Pointer and scroll events -/

/-- C11: on a state with `firstMouse` set and pitch in [-89, 89], a cursor move
to any `(x, y)`, with the left button held or not, leaves yaw and pitch
unchanged, records `(x, y)` as the last cursor position and clears
`firstMouse`. -/
theorem first_move_is_absorbed {α : Type} [LinearOrderedField α] (state : GLState α)
    (x y : α) (hf : state.firstMouse = true)
    (hp : -89 ≤ state.pitch ∧ state.pitch ≤ 89) :
    (MouseMoveCallback state x y).yaw = state.yaw
    ∧ (MouseMoveCallback state x y).pitch = state.pitch
    ∧ (MouseMoveCallback state x y).lastMouseX = x
    ∧ (MouseMoveCallback state x y).lastMouseY = y
    ∧ (MouseMoveCallback state x y).firstMouse = false := by
  refine ⟨?_, ?_, MouseMoveCallback_reference state x y⟩
  · rw [MouseMoveCallback_yaw, hf]
    simp
  · rw [MouseMoveCallback_pitch, hf, clamp_eq_ite _ _ _ (by norm_num)]
    simp only [if_true, sub_self, zero_mul, add_zero]
    split_ifs <;> first | rfl | (exfalso; linarith [hp.1, hp.2])

/-- Witness of C11 on the initial state with the button already held: a first
move to (640, 360) changes neither yaw nor pitch. -/
theorem first_move_is_absorbed_witness :
    pressedFirstState.firstMouse = true
    ∧ (-89 ≤ pressedFirstState.pitch ∧ pressedFirstState.pitch ≤ 89)
    ∧ (MouseMoveCallback pressedFirstState 640 360).yaw = -90
    ∧ (MouseMoveCallback pressedFirstState 640 360).pitch = 0
    ∧ (MouseMoveCallback pressedFirstState 640 360).lastMouseX = 640
    ∧ (MouseMoveCallback pressedFirstState 640 360).lastMouseY = 360
    ∧ (MouseMoveCallback pressedFirstState 640 360).firstMouse = false :=
  have hp : -89 ≤ pressedFirstState.pitch ∧ pressedFirstState.pitch ≤ 89 := by
    norm_num [pressedFirstState, GLState.initial]
  ⟨rfl, hp, first_move_is_absorbed pressedFirstState 640 360 rfl hp⟩

/-- C12: once the first move is absorbed, a cursor move with the left button up
leaves yaw and pitch unchanged; with the button held the new yaw is
`yaw + 0.1 * (x - lastMouseX)` and the new pitch is
`clamp (pitch + 0.1 * (lastMouseY - y)) (-89) 89`, so a move up the screen
(`y < lastMouseY`) from a pitch in [-89, 89) strictly increases pitch. -/
theorem move_rotates_only_while_pressed {α : Type} [LinearOrderedField α]
    (state : GLState α) (x y : α) (hf : state.firstMouse = false) :
    (state.leftMousePressed = false →
        (MouseMoveCallback state x y).yaw = state.yaw
        ∧ (MouseMoveCallback state x y).pitch = state.pitch)
    ∧ (state.leftMousePressed = true →
        (MouseMoveCallback state x y).yaw = state.yaw + 0.1 * (x - state.lastMouseX)
        ∧ (MouseMoveCallback state x y).pitch
            = clamp (state.pitch + 0.1 * (state.lastMouseY - y)) (-89) 89)
    ∧ (state.leftMousePressed = true → y < state.lastMouseY →
        -89 ≤ state.pitch → state.pitch < 89 →
        state.pitch < (MouseMoveCallback state x y).pitch) := by
  have hpressed : state.leftMousePressed = true →
      (MouseMoveCallback state x y).pitch
        = clamp (state.pitch + 0.1 * (state.lastMouseY - y)) (-89) 89 := by
    intro hl
    rw [MouseMoveCallback_pitch, hf, hl]
    simp [mul_comm]
  refine ⟨?_, ?_, ?_⟩
  · intro hl
    rw [MouseMoveCallback_yaw, MouseMoveCallback_pitch, hl]
    simp
  · intro hl
    refine ⟨?_, hpressed hl⟩
    rw [MouseMoveCallback_yaw, hf, hl]
    simp [mul_comm]
  · intro hl hy hlo hhi
    rw [hpressed hl, clamp_eq_ite _ _ _ (by norm_num)]
    have hd : 0 < 0.1 * (state.lastMouseY - y) := by
      apply mul_pos (by norm_num)
      linarith
    split_ifs <;> linarith

/-- Witness of C12 on the drag state: a move from (0, 0) to (30, -50) turns yaw
from -90 to -87 and raises pitch from 0 to 5. -/
theorem move_rotates_only_while_pressed_witness :
    dragState.firstMouse = false
    ∧ dragState.leftMousePressed = true
    ∧ (MouseMoveCallback dragState 30 (-50)).yaw = -87
    ∧ (MouseMoveCallback dragState 30 (-50)).pitch = 5
    ∧ dragState.pitch < (MouseMoveCallback dragState 30 (-50)).pitch := by
  have H := move_rotates_only_while_pressed dragState 30 (-50) rfl
  have hy := (H.2.1 rfl).1
  have hpt := (H.2.1 rfl).2
  have hup := H.2.2 rfl (by norm_num [dragState, GLState.initial])
    (by norm_num [dragState, GLState.initial]) (by norm_num [dragState, GLState.initial])
  refine ⟨rfl, rfl, ?_, ?_, hup⟩
  · rw [hy]; norm_num [dragState, GLState.initial]
  · rw [hpt]; norm_num [dragState, GLState.initial, clamp]

/-- C13: in first-person mode a scroll by `dy` sets pos to
`pos + 0.5 * dy * front yaw pitch` and gaze to the new pos plus `front`, and
leaves cameraDistance unchanged; in an orbit mode it changes cameraDistance and
nothing else, so pos and gaze are unchanged; in every mode yaw, pitch, mode and
timeSpeed are unchanged. -/
theorem scroll_moves_position_or_distance (state : GLState ℝ) (dy : ℝ) :
    (state.mode = 3 →
        (MouseScrollCallback state dy).pos
          = Vec3.add state.pos (Vec3.smul (0.5 * dy) (front state.yaw state.pitch))
        ∧ (MouseScrollCallback state dy).gaze
          = Vec3.add (MouseScrollCallback state dy).pos (front state.yaw state.pitch)
        ∧ (MouseScrollCallback state dy).cameraDistance = state.cameraDistance)
    ∧ (state.mode < 3 →
        (MouseScrollCallback state dy).pos = state.pos
        ∧ (MouseScrollCallback state dy).gaze = state.gaze
        ∧ MouseScrollCallback state dy
          = { state with cameraDistance := (MouseScrollCallback state dy).cameraDistance })
    ∧ (MouseScrollCallback state dy).yaw = state.yaw
    ∧ (MouseScrollCallback state dy).pitch = state.pitch
    ∧ (MouseScrollCallback state dy).mode = state.mode
    ∧ (MouseScrollCallback state dy).timeSpeed = state.timeSpeed := by
  refine ⟨?_, ?_, ?_⟩
  · intro h
    rw [MouseScrollCallback_fps state dy h, mul_comm 0.5 dy]
    exact ⟨rfl, rfl, rfl⟩
  · intro h
    have hne : state.mode ≠ 3 := by omega
    rw [MouseScrollCallback_orbit state dy hne]
    exact ⟨rfl, rfl, rfl⟩
  · by_cases h : state.mode = 3
    · rw [MouseScrollCallback_fps state dy h]
      exact ⟨rfl, rfl, rfl, rfl⟩
    · rw [MouseScrollCallback_orbit state dy h]
      exact ⟨rfl, rfl, rfl, rfl⟩

/-- Witness of C13: on the initial first-person state with W held a scroll by 2
moves the camera from (0, 0, 10) to (0, 0, 9), looking at (0, 0, 8), and keeps
the distance 10; on the Earth orbit state it leaves pos and gaze alone. -/
theorem scroll_moves_position_or_distance_witness :
    forwardState.mode = 3
    ∧ (MouseScrollCallback forwardState 2).pos = ⟨0, 0, 9⟩
    ∧ (MouseScrollCallback forwardState 2).gaze = ⟨0, 0, 8⟩
    ∧ (MouseScrollCallback forwardState 2).cameraDistance = 10
    ∧ orbitState.mode < 3
    ∧ (MouseScrollCallback orbitState 2).pos = ⟨0, 0, 10⟩
    ∧ (MouseScrollCallback orbitState 2).gaze = ⟨0, 0, 0⟩ := by
  have hf := (scroll_moves_position_or_distance forwardState 2).1 rfl
  have hm : orbitState.mode < 3 := by simp [orbitState]
  have ho := (scroll_moves_position_or_distance orbitState 2).2.1 hm
  have hfront : front forwardState.yaw forwardState.pitch = ⟨0, 0, -1⟩ :=
    front_neg_ninety_zero
  have hpos : (MouseScrollCallback forwardState 2).pos = ⟨0, 0, 9⟩ := by
    rw [hf.1, hfront]
    norm_num [forwardState, GLState.initial, Vec3.add, Vec3.smul]
  refine ⟨rfl, hpos, ?_, hf.2.2, hm, ho.1, ho.2.1⟩
  rw [hf.2.1, hpos, hfront]
  norm_num [Vec3.add]

/-! ## Camera scenarios -/

/-- C14: with currentTime 0, mode 0, yaw -90, pitch 0 and cameraDistance 10,
`UpdateOrbitCamera` puts the camera at (0, 0, -10) and the gaze at (0, 0, 0). -/
theorem orbit_scenario (state : GLState ℝ) (ht : state.currentTime = 0)
    (hm : state.mode = 0) (hy : state.yaw = -90) (hp : state.pitch = 0)
    (hd : state.cameraDistance = 10) :
    (UpdateOrbitCamera state).pos = ⟨0, 0, -10⟩
    ∧ (UpdateOrbitCamera state).gaze = ⟨0, 0, 0⟩ := by
  have hc : clamp (0 : ℝ) (-89) 89 = 0 := by
    rw [clamp_eq_ite _ _ _ (by norm_num)]
    norm_num
  obtain ⟨h1, h2⟩ := UpdateOrbitCamera_pos_gaze state
  rw [h1, h2, ht, hm, hy, hp, hd, hc, radians_neg_ninety, radians_zero]
  simp [GetPlanetPosition, Vec3.splat]

/-- Witness of C14 on the initial state switched to the Earth orbit mode. -/
theorem orbit_scenario_witness :
    orbitState.currentTime = 0 ∧ orbitState.mode = 0 ∧ orbitState.yaw = -90
    ∧ orbitState.pitch = 0 ∧ orbitState.cameraDistance = 10
    ∧ (UpdateOrbitCamera orbitState).pos = ⟨0, 0, -10⟩
    ∧ (UpdateOrbitCamera orbitState).gaze = ⟨0, 0, 0⟩ :=
  ⟨rfl, rfl, rfl, rfl, rfl, orbit_scenario orbitState rfl rfl rfl rfl rfl⟩

/-- C15: in mode 3 with only W held, deltaTime 1, yaw -90 and pitch 0,
`UpdateFPSCamera` moves pos by 5 * (0, 0, -1), to pos + (0, 0, -5), and sets
gaze to the new pos + (0, 0, -1), from every starting position. -/
theorem fps_scenario (state : GLState ℝ) (hm : state.mode = 3)
    (hw : state.wPressed = true) (hs : state.sPressed = false)
    (ha : state.aPressed = false) (hd : state.dPressed = false)
    (hy : state.yaw = -90) (hp : state.pitch = 0) :
    (UpdateFPSCamera state 1).pos = Vec3.add state.pos (Vec3.smul 5 ⟨0, 0, -1⟩)
    ∧ (UpdateFPSCamera state 1).pos = Vec3.add state.pos ⟨0, 0, -5⟩
    ∧ (UpdateFPSCamera state 1).gaze = Vec3.add (UpdateFPSCamera state 1).pos ⟨0, 0, -1⟩ := by
  rcases state with ⟨w, h, g, p, u, yw, pt, cd, lp, lx, ly, fm, wp, ap, sp, dp, ts, ct, md⟩
  simp only at hm hw hs ha hd hy hp
  subst hm hw hs ha hd hy hp
  simp [UpdateFPSCamera, front_neg_ninety_zero, Vec3.add, Vec3.smul]

/-- Witness of C15 on the initial state with W held, which starts at
(0, 0, 10): the camera moves to (0, 0, 5) and looks at (0, 0, 4). -/
theorem fps_scenario_witness :
    forwardState.mode = 3 ∧ forwardState.wPressed = true ∧ forwardState.sPressed = false
    ∧ forwardState.aPressed = false ∧ forwardState.dPressed = false
    ∧ forwardState.yaw = -90 ∧ forwardState.pitch = 0
    ∧ (UpdateFPSCamera forwardState 1).pos = ⟨0, 0, 5⟩
    ∧ (UpdateFPSCamera forwardState 1).gaze = ⟨0, 0, 4⟩ := by
  have H := fps_scenario forwardState rfl rfl rfl rfl rfl rfl rfl
  refine ⟨rfl, rfl, rfl, rfl, rfl, rfl, rfl, ?_, ?_⟩
  · rw [H.2.1]
    norm_num [forwardState, GLState.initial, Vec3.add]
  · rw [H.2.2, H.2.1]
    norm_num [forwardState, GLState.initial, Vec3.add]

/-! ## Light direction and the up vector of the light view -/

/-- C16: at every simulation time the light direction has y-component 0 and
Euclidean norm 1, and the length `normalize` divides by is not zero. -/
theorem lightDir_is_unit_in_xz (state : GLState ℝ) :
    (lightDir state).y = 0
    ∧ length (lightDir state) = 1
    ∧ Real.sqrt (Vec3.dot (sunVector state) (sunVector state)) ≠ 0 := by
  refine ⟨?_, ?_, ?_⟩
  · rw [lightDir_eq]
  · have h : Vec3.dot (lightDir state) (lightDir state) = 1 := by
      rw [lightDir_eq]
      simp only [Vec3.dot]
      have := Real.sin_sq_add_cos_sq (state.currentTime * 0.1)
      nlinarith
    rw [length, h, Real.sqrt_one]
  · rw [sunVector_dot, Real.sqrt_one]
    exact one_ne_zero

/-- C17: at every simulation time `lightActualUp` is orthogonal to `lightDir`
and has unit length; the cross product of `lightUp` and `lightDir` is not the
zero vector and the length `normalize` divides by is not zero. -/
theorem lightActualUp_orthonormal (state : GLState ℝ) :
    Vec3.dot (lightActualUp state) (lightDir state) = 0
    ∧ length (lightActualUp state) = 1
    ∧ Vec3.cross lightUp (lightDir state) ≠ ⟨0, 0, 0⟩
    ∧ Real.sqrt (Vec3.dot (Vec3.cross lightUp (lightDir state))
        (Vec3.cross lightUp (lightDir state))) ≠ 0 := by
  have hsc := Real.sin_sq_add_cos_sq (state.currentTime * 0.1)
  refine ⟨?_, ?_, ?_, ?_⟩
  · rw [lightActualUp_eq, lightDir_eq]
    simp [Vec3.dot]
  · rw [lightActualUp_eq]
    simp [length, Vec3.dot]
  · rw [cross_lightUp_lightDir]
    intro h
    have hs : Real.sin (state.currentTime * 0.1) = 0 := congrArg Vec3.x h
    have hc : -Real.cos (state.currentTime * 0.1) = 0 := congrArg Vec3.z h
    have hc2 : Real.cos (state.currentTime * 0.1) = 0 := by linarith
    rw [hs, hc2] at hsc
    norm_num at hsc
  · have h : Vec3.dot (Vec3.cross lightUp (lightDir state))
        (Vec3.cross lightUp (lightDir state)) = 1 := by
      rw [cross_lightUp_lightDir]
      simp only [Vec3.dot]
      nlinarith
    rw [h, Real.sqrt_one]
    exact one_ne_zero

/-! ## Orbit camera -/

/-- C18: for a cameraDistance `≥ 0`, in every mode and so in the orbit modes 0,
1 and 2, after `UpdateOrbitCamera` the gaze is
`GetPlanetPosition mode currentTime`, the camera is at Euclidean distance
exactly cameraDistance from the gaze, and the result is the same whatever pos
and gaze were before the call. -/
theorem orbit_camera_on_sphere (state : GLState ℝ) (hd : 0 ≤ state.cameraDistance) :
    (UpdateOrbitCamera state).gaze = GetPlanetPosition (state.mode : Int) state.currentTime
    ∧ distance (UpdateOrbitCamera state).pos (UpdateOrbitCamera state).gaze
        = state.cameraDistance
    ∧ (∀ p g : Vec3 ℝ,
        UpdateOrbitCamera { state with pos := p, gaze := g } = UpdateOrbitCamera state) := by
  obtain ⟨h1, h2⟩ := UpdateOrbitCamera_pos_gaze state
  refine ⟨h2, ?_, ?_⟩
  · rw [h1, h2]
    exact distance_spherical _ _ _ _ hd
  · intro p g
    rfl

/-- Witness of C18 on the initial state switched to the Earth orbit mode: the
camera ends at distance 10 from the origin, whatever pos and gaze were. -/
theorem orbit_camera_on_sphere_witness :
    orbitState.mode < 3 ∧ 0 ≤ orbitState.cameraDistance
    ∧ (UpdateOrbitCamera orbitState).gaze = GetPlanetPosition 0 0
    ∧ distance (UpdateOrbitCamera orbitState).pos (UpdateOrbitCamera orbitState).gaze = 10
    ∧ UpdateOrbitCamera { orbitState with pos := ⟨1, 2, 3⟩, gaze := ⟨4, 5, 6⟩ }
        = UpdateOrbitCamera orbitState :=
  have hm : orbitState.mode < 3 := by simp [orbitState]
  have hd : 0 ≤ orbitState.cameraDistance := by norm_num [orbitState, GLState.initial]
  ⟨hm, hd,
    (orbit_camera_on_sphere orbitState hd).1,
    (orbit_camera_on_sphere orbitState hd).2.1,
    (orbit_camera_on_sphere orbitState hd).2.2 ⟨1, 2, 3⟩ ⟨4, 5, 6⟩⟩

/-! ## Shadow pass against main pass -/

/-- C19: at every time the Earth, Moon and Moon's-moon matrices of the shadow
pass equal those the main pass builds on its own, the Moon matrix rebuilt
inside the Moon's-moon block included, although the main pass leaves
`scale(earthModel, vec3(1.0f))` out of the Earth prefix. -/
theorem shadow_and_main_pass_agree (state : GLState ℝ) :
    shadowEarthModel state = mainEarthModel state
    ∧ shadowMoonModel state = mainMoonModel state
    ∧ shadowMoonModel state = mainMoonMoonParent state
    ∧ shadowMoonMoonModel state = mainMoonMoonModel state :=
  ⟨rfl, (mainMoonModel_eq_shadow state).symm, (mainMoonMoonParent_eq_shadow state).symm,
    (mainMoonMoonModel_eq_shadow state).symm⟩

end PlanetRenderer
